import Mathlib

/-!
Shallow embedding of `ricecooker/classes/files.py`: the acquisition-and-caching
pipeline for source files (download, cache-key construction, stream hashing,
per-variant `process_file` / `get_filename` / `get_preset` / `validate`).

External collaborators (hashlib, requests, youtube_dl, pressurecooker,
le_utils constants, the filesystem) are modelled as oracles carried in a
`World` record; the md5 object is modelled by the byte sequence it has
absorbed, which is exactly hashlib's streaming contract (the digest is a
function of the concatenation of all `update` calls).
-/

namespace Ricecooker

/-- Python exception values that can cross the boundaries modelled here. -/
inductive PyErr where
  | httpError
  | connectionError
  | invalidURL
  | unicodeDecodeError
  | invalidSchema
  | missingSchema
  | ioError (msg : String)
  | assertionError (msg : String)
  | calledProcessError
  | brokenPipeError
  | downloadError (msg : String)
  | attributeError
  | notImplementedError (msg : String)
  | unknownFileTypeError (msg : String)
deriving DecidableEq

/-- Node kinds from `nodes.py` (the owning content node of a file). -/
inductive NodeKind where
  | channel | topic | video | audio | document | exercise | html5app
deriving DecidableEq

/-- The closed set of `File` subclasses defined in `files.py`. -/
inductive Variant where
  | fileF            -- base class File
  | downloadF        -- DownloadFile
  | thumbnailF       -- ThumbnailFile
  | audioF           -- AudioFile
  | documentF        -- DocumentFile
  | htmlZipF         -- HTMLZipFile
  | extractedThumbnailF -- ExtractedVideoThumbnailFile
  | videoF           -- VideoFile
  | webVideoF        -- WebVideoFile (and YouTubeVideoFile)
  | youtubeSubtitleF -- YouTubeSubtitleFile
  | subtitleF        -- SubtitleFile
  | base64ImageF     -- Base64ImageFile
  | exerciseBase64F  -- _ExerciseBase64ImageFile
  | exerciseImageF   -- _ExerciseImageFile
  | exerciseGraphieF -- _ExerciseGraphieFile
deriving DecidableEq

/-! ### Constants from the external `le_utils` package -/

def file_formats_MP4 : String := "mp4"
def file_formats_MP3 : String := "mp3"
def file_formats_PDF : String := "pdf"
def file_formats_HTML5 : String := "zip"
def file_formats_PNG : String := "png"
def file_formats_JPG : String := "jpg"
def file_formats_JPEG : String := "jpeg"
def file_formats_VTT : String := "vtt"
def file_formats_GRAPHIE : String := "graphie"

/-- Modelled from the spec: the allowed set of known file formats
(`file_formats.choices` of the external `le_utils` collaborator, not under
`src/`); `download` recognises an extension only if it is in this set. -/
def file_formats_choices : List String :=
  ["mp4", "mp3", "pdf", "zip", "png", "jpg", "jpeg", "vtt", "srt",
   "graphie", "json", "svg", "perseus", "gif", "webm", "wav", "mov"]

def format_presets_CHANNEL_THUMBNAIL : String := "channel_thumbnail"
def format_presets_VIDEO_THUMBNAIL : String := "video_thumbnail"
def format_presets_AUDIO_THUMBNAIL : String := "audio_thumbnail"
def format_presets_DOCUMENT_THUMBNAIL : String := "document_thumbnail"
def format_presets_EXERCISE_THUMBNAIL : String := "exercise_thumbnail"
def format_presets_HTML5_THUMBNAIL : String := "html5_thumbnail"
def format_presets_AUDIO : String := "audio"
def format_presets_DOCUMENT : String := "document"
def format_presets_HTML5_ZIP : String := "html5_zip"
def format_presets_VIDEO_SUBTITLE : String := "video_subtitle"
def format_presets_EXERCISE_IMAGE : String := "exercise_image"
def format_presets_EXERCISE_GRAPHIE : String := "exercise_graphie"

/-- Modelled from the spec: the fixed delimiter placed between the svg part
and the json part of a composite graphie asset
(`exercises.GRAPHIE_DELIMITER` of the external `le_utils` collaborator). -/
def exercises_GRAPHIE_DELIMITER : String := "☃"

/-! ### generate_key (lines 24-34) -/

/-- Ordering used by Python `sorted` on pairs of strings
(lexicographic tuple comparison). -/
def pairLe (a b : String × String) : Prop :=
  a.1 < b.1 ∨ (a.1 = b.1 ∧ a.2 ≤ b.2)

instance : DecidableRel pairLe := fun a b => by
  unfold pairLe; infer_instance

instance : IsTotal (String × String) pairLe := by
  constructor
  intro a b
  rcases lt_trichotomy a.1 b.1 with h | h | h
  · exact Or.inl (Or.inl h)
  · rcases le_total a.2 b.2 with h2 | h2
    · exact Or.inl (Or.inr ⟨h, h2⟩)
    · exact Or.inr (Or.inr ⟨h.symm, h2⟩)
  · exact Or.inr (Or.inl h)

instance : IsTrans (String × String) pairLe := by
  constructor
  intro a b c hab hbc
  rcases hab with h1 | ⟨e1, l1⟩
  · rcases hbc with h2 | ⟨e2, _⟩
    · exact Or.inl (h1.trans h2)
    · exact Or.inl (e2 ▸ h1)
  · rcases hbc with h2 | ⟨e2, l2⟩
    · exact Or.inl (e1 ▸ h2)
    · exact Or.inr ⟨e1.trans e2, l1.trans l2⟩

instance : IsAntisymm (String × String) pairLe := by
  constructor
  intro a b hab hba
  rcases hab with h1 | ⟨e1, l1⟩
  · rcases hba with h2 | ⟨e2, _⟩
    · exact absurd (h1.trans h2) (lt_irrefl _)
    · exact absurd h1 (e2 ▸ lt_irrefl _)
  · rcases hba with h2 | ⟨_, l2⟩
    · exact absurd h2 (e1 ▸ lt_irrefl _)
    · exact Prod.ext e1 (le_antisymm l1 l2)

/-- Python `sorted(settings.items())`. -/
def sorted_items (s : List (String × String)) : List (String × String) :=
  s.insertionSort pairLe

/-- Python `str` of a list of pairs (the exact rendering is irrelevant to
the cache-key properties; equal lists render equally). -/
def pyRepr (l : List (String × String)) : String :=
  "[" ++ String.intercalate ", " (l.map fun p => "(" ++ p.1 ++ ", " ++ p.2 ++ ")") ++ "]"

/-- Python `str.upper` (character-wise, as `String.toUpper`). -/
def pyUpper (s : String) : String :=
  String.mk (s.toList.map Char.toUpper)

/-- `generate_key` (lines 24-34): settings are serialized sorted; an empty
(or absent) settings dict falls back to the `default` suffix. -/
def generate_key (action path_or_id : String) (settings : List (String × String))
    (default : String) : String :=
  let suffix := if settings.isEmpty then default
                else " " ++ pyRepr (sorted_items settings)
  pyUpper action ++ ": " ++ path_or_id ++ suffix

/-! ### The md5 stream model -/

def hexChar (n : Nat) : Char :=
  if n < 10 then Char.ofNat (48 + n) else Char.ofNat (87 + n)

def byteHex (b : UInt8) : String :=
  String.mk [hexChar (b.toNat / 16), hexChar (b.toNat % 16)]

/-- The digest rendered by `hexdigest`: a content-determined function of all
absorbed bytes, modelling the external `hashlib.md5`. -/
def md5hex (bs : List UInt8) : String :=
  String.join (bs.map byteHex)

/-- An md5 object, identified by the byte sequence absorbed so far
(hashlib's streaming contract: digest = function of the concatenation of
all `update` payloads). -/
structure MD5 where
  data : List UInt8
deriving DecidableEq

def MD5.new : MD5 := ⟨[]⟩

def MD5.update (h : MD5) (chunk : List UInt8) : MD5 := ⟨h.data ++ chunk⟩

def MD5.hexdigest (h : MD5) : String := md5hex h.data

/-- Byte rendering of a Python string (modelling `.encode('utf-8')`;
the exact byte encoding is irrelevant to the claims). -/
def strBytes (s : String) : List UInt8 :=
  s.toList.map (fun c => UInt8.ofNat c.toNat)

/-! ### Path extension helpers (`os.path.splitext`) -/

/-- Split a character list at every occurrence of a separator char. -/
def splitChar (c : Char) : List Char → List (List Char)
  | [] => [[]]
  | x :: xs =>
      if x = c then [] :: splitChar c xs
      else match splitChar c xs with
           | [] => [[x]]
           | h :: t => (x :: h) :: t

/-- The extension component of `os.path.splitext(path)[1][1:]`: the text
after the last dot of the final path segment, where dots leading that
segment do not count. Empty if there is no such dot. -/
def path_extension_raw (path : String) : String :=
  let base := (splitChar '/' path.toList).getLastD []
  let lead := (base.takeWhile (fun c => c = '.')).length
  let rest := base.drop lead
  if rest.contains '.' then
    String.mk ((rest.reverse.takeWhile (fun c => c ≠ '.')).reverse)
  else ""

/-- `os.path.splitext(path)[1][1:].lower()` as used by `download`. -/
def path_extension (path : String) : String :=
  String.mk ((path_extension_raw path).toList.map Char.toLower)

/-! ### Descriptors and the world state -/

/-- A `File` instance: the common attributes of `files.py`'s class
hierarchy flattened into one record, tagged by its concrete class. -/
structure FileD where
  variant : Variant
  preset : Option String := none
  language : Option String := none
  default_ext : Option String := none
  source_url : Option String := none
  filename : Option String := none
  error : Option PyErr := none
  original_filename : Option String := none
  path : String := ""
  ffmpeg_settings : Option (List (String × String)) := none
  web_url : String := ""
  download_settings : List (String × String) := []
  youtube_id : String := ""
  encoding : String := ""
  node : Option NodeKind := none
deriving DecidableEq

/-- Per-class `allowed_formats` (DownloadFile subclasses). -/
def allowed_formats : Variant → List String
  | .thumbnailF => [file_formats_JPG, file_formats_JPEG, file_formats_PNG]
  | .extractedThumbnailF => [file_formats_JPG, file_formats_JPEG, file_formats_PNG]
  | .audioF => [file_formats_MP3]
  | .documentF => [file_formats_PDF]
  | .htmlZipF => [file_formats_HTML5]
  | .videoF => [file_formats_MP4]
  | .subtitleF => [file_formats_VTT]
  | _ => []

/-- The process-wide state and the external collaborators, threaded
explicitly: `config.UPDATE`, `config.COMPRESS`, the `FILECACHE`, the
storage directory, `config.FAILED_FILES`, and oracles for the network,
local filesystem, and external tools. -/
structure World where
  update : Bool := false
  compress : Bool := false
  filecache : List (String × String) := []
  storage : List (String × List UInt8) := []
  failed : List FileD := []
  /-- `requests` GET of a path, as the chunk stream it yields, or the
  exception it raises (`MissingSchema`/`InvalidSchema` trigger the local
  file fallback inside `write_and_get_hash`). -/
  net : String → Except PyErr (List (List UInt8))
  /-- Local `open(path).read` as a chunk stream, or the raised `IOError`. -/
  fs : String → Except PyErr (List (List UInt8))
  /-- External `write_base64_to_file`: the decoded bytes of an encoding. -/
  decode64 : String → List UInt8
  /-- External `compress_video` (ffmpeg): bytes of the transcoded output
  for a given storage path and settings, or a raised tool error. -/
  compressTool : String → List (String × String) → Except PyErr (List UInt8)
  /-- External `youtube_dl` video download: output-file bytes or error. -/
  webVideoTool : String → List (String × String) → Except PyErr (List UInt8)
  /-- External `youtube_dl` subtitle download keyed by id and language. -/
  subtitleTool : String → String → Except PyErr (List UInt8)
  /-- External `extract_thumbnail_from_video`. -/
  extractTool : String → Except PyErr (List UInt8)

/-- `config.get_storage_path(filename)` (flat directory model). -/
def storage_path (filename : String) : String := "storage/" ++ filename

/-- The guarded cache read pattern
`if not config.UPDATE and FILECACHE.get(key): return ...decode...`:
a hit requires UPDATE off, a present entry, and a non-empty (truthy)
cached value. -/
def cache_lookup (w : World) (key : String) : Option String :=
  if w.update then none
  else match w.filecache.lookup key with
       | some v => if v = "" then none else some v
       | none => none

/-- `FILECACHE.set key value`. -/
def cache_set (w : World) (key value : String) : World :=
  { w with filecache := (key, value) :: w.filecache }

/-- `copy_file_to_storage` (lines 93-103): write bytes under the canonical
name; an existing entry is harmlessly overwritten with equal bytes. -/
def storage_store (w : World) (filename : String) (bs : List UInt8) : World :=
  { w with storage := (filename, bs) :: w.storage }

/-- Appending a failed descriptor to `config.FAILED_FILES`. -/
def record_failure (w : World) (d : FileD) : World :=
  { w with failed := w.failed ++ [d] }

/-! ### write_and_get_hash and download (lines 36-91) -/

/-- The source-resolution part of `write_and_get_hash`: try the HTTP
session; on `MissingSchema`/`InvalidSchema` fall back to opening the path
as a local file (lines 74-87). -/
def get_chunks (w : World) (path : String) : Except PyErr (List (List UInt8)) :=
  match w.net path with
  | .ok chunks => .ok chunks
  | .error .missingSchema => w.fs path
  | .error .invalidSchema => w.fs path
  | .error e => .error e

/-- `write_and_get_hash` (lines 68-91): stream the source's chunks into the
destination file while updating a (possibly resumed) md5; then
`assert write_to_file.tell() > 0` — the *file position*, i.e. the total
bytes in the destination, not the bytes this call copied. Returns the
destination content and the hash object. -/
def write_and_get_hash (w : World) (path : String) (write_to_file : List UInt8)
    (h : Option MD5) : Except PyErr (List UInt8 × MD5) :=
  let hash := h.getD MD5.new
  match get_chunks w path with
  | .error e => .error e
  | .ok chunks =>
      let f := write_to_file ++ chunks.flatten
      let hash := chunks.foldl MD5.update hash
      if f.length > 0 then .ok (f, hash)
      else .error (.assertionError "File failed to write (corrupted).")

/-- Extension choice inside `download` (lines 52-58): the path's suffix if
it is a recognised format, else the (truthy) default, else `IOError`. -/
def choose_extension (extension : String) (default_ext : Option String) :
    Except PyErr String :=
  if extension ∈ file_formats_choices then .ok extension
  else match default_ext with
       | some d => if d = "" then .error (.ioError "No extension found")
                   else .ok d
       | none => .error (.ioError "No extension found")

/-- `download` (lines 36-66): cache lookup under `DOWNLOAD:path`, else
fetch through `write_and_get_hash` into a temp file, pick the extension,
store under `<digest>.<ext>`, record the cache entry. -/
def download (w : World) (path : String) (default_ext : Option String) :
    Except PyErr (String × World) :=
  let key := "DOWNLOAD:" ++ path
  match cache_lookup w key with
  | some f => .ok (f, w)
  | none =>
      match write_and_get_hash w path [] none with
      | .error e => .error e
      | .ok (tempf, hash) =>
          match choose_extension (path_extension path) default_ext with
          | .error e => .error e
          | .ok ext =>
              let filename := hash.hexdigest ++ "." ++ ext
              let w := storage_store w filename tempf
              let w := cache_set w key filename
              .ok (filename, w)

/-- `compress_video_file` (lines 113-130): cache under the generated
COMPRESSED key (empty settings use the default suffix), else run the
external transcoder on the stored file, hash its output, store it. -/
def compress_video_file (w : World) (filename : String)
    (ffmpeg_settings : Option (List (String × String))) :
    Except PyErr (String × World) :=
  let settings := ffmpeg_settings.getD []
  let key := generate_key "COMPRESSED" filename settings " (default compression)"
  match cache_lookup w key with
  | some f => .ok (f, w)
  | none =>
      match w.compressTool (storage_path filename) settings with
      | .error e => .error e
      | .ok outBytes =>
          let outName := md5hex outBytes ++ "." ++ file_formats_MP4
          let w := storage_store w outName outBytes
          let w := cache_set w key outName
          .ok (outName, w)

/-- `download_from_web` (lines 132-156): cache under the DOWNLOADED key,
else delegate the fetch to youtube_dl, hash and store its output file. -/
def download_from_web (w : World) (web_url : String)
    (download_settings : List (String × String)) :
    Except PyErr (String × World) :=
  let key := generate_key "DOWNLOADED" web_url download_settings " (default)"
  match cache_lookup w key with
  | some f => .ok (f, w)
  | none =>
      match w.webVideoTool web_url download_settings with
      | .error e => .error e
      | .ok outBytes =>
          let filename := md5hex outBytes ++ "." ++ file_formats_MP4
          let w := storage_store w filename outBytes
          let w := cache_set w key filename
          .ok (filename, w)

/-! ### Validation (File.validate / DownloadFile.validate, lines 191-241) -/

/-- `DownloadFile.validate` (lines 235-241): assert a non-empty path; for a
plain extension longer than one character, assert membership in the class's
`allowed_formats` (the extension is `splitext`'s suffix with leading dots
stripped, not lowercased). `File.validate` is a no-op. -/
def validate (d : FileD) : Except PyErr Unit :=
  match d.variant with
  | .fileF | .webVideoF | .youtubeSubtitleF | .base64ImageF | .exerciseBase64F =>
      .ok ()
  | v =>
      if d.path = "" then
        .error (.assertionError "must have a path")
      else
        let plain_ext := path_extension_raw d.path
        if plain_ext.length > 1 ∧ plain_ext ∉ allowed_formats v then
          .error (.assertionError "must have one of the following extensions")
        else .ok ()

/-! ### Base64 images (lines 430-467) -/

/-- Split a character list at the first occurrence of a separator
sequence, dropping the separator; `none` when the separator is absent. -/
def breakOnSub (sep : List Char) : List Char → Option (List Char × List Char)
  | [] => none
  | x :: xs =>
      if sep.isPrefixOf (x :: xs) then some ([], (x :: xs).drop sep.length)
      else match breakOnSub sep xs with
           | some (a, b) => some (x :: a, b)
           | none => none

/-- External `pressurecooker.get_base64_encoding`: match the
`data:image/<type>;base64,<payload>` shape and yield the declared type. -/
def get_base64_encoding (s : String) : Option String :=
  let cs := s.toList
  let pre := "data:image/".toList
  if pre.isPrefixOf cs then
    match breakOnSub ";base64,".toList (cs.drop pre.length) with
    | some (ext, _) => some (String.mk ext)
    | none => none
  else none

/-- `Base64ImageFile.convert_base64_to_file` (lines 445-467): cache key
from the md5 of the *encoded* text; on a miss, extract the declared type
(`.group(1)` on a non-match raises), assert the png/jpg/jpeg allow-list,
decode, and store the bytes under `<digest-of-decoded>.png` — the stored
extension is always `file_formats.PNG` (line 462). -/
def convert_base64_to_file (w : World) (encoding : String) :
    Except PyErr (String × World) :=
  let hashed_content := md5hex (strBytes encoding)
  let key := "ENCODED: " ++ hashed_content ++ " (base64 encoded)"
  match cache_lookup w key with
  | some f => .ok (f, w)
  | none =>
      match get_base64_encoding encoding with
      | none => .error .attributeError
      | some extension =>
          if extension = file_formats_PNG ∨ extension = file_formats_JPG ∨
             extension = file_formats_JPEG then
            let bs := w.decode64 encoding
            let filename := md5hex bs ++ "." ++ file_formats_PNG
            let w := storage_store w filename bs
            let w := cache_set w key filename
            .ok (filename, w)
          else .error (.assertionError "Base64 files must be images in jpg or png format")

/-! ### YouTube subtitles (lines 383-416) -/

/-- `YouTubeSubtitleFile.download_subtitle` (lines 383-416): cache under
the id-and-language key, else let youtube_dl fetch the track (absence of
the language surfaces as the tool's error), hash and store the output. -/
def download_subtitle (w : World) (youtube_id language : String) :
    Except PyErr (String × World) :=
  let key := "DOWNLOADED YOUTUBE " ++ youtube_id ++ "-" ++ language
  match cache_lookup w key with
  | some f => .ok (f, w)
  | none =>
      match w.subtitleTool youtube_id language with
      | .error e => .error e
      | .ok outBytes =>
          let filename := md5hex outBytes ++ "." ++ file_formats_VTT
          let w := storage_store w filename outBytes
          let w := cache_set w key filename
          .ok (filename, w)

/-! ### Extracted video thumbnails (lines 292-313) -/

/-- `ExtractedVideoThumbnailFile.derive_thumbnail` (lines 299-313). -/
def derive_thumbnail (w : World) (path : String) : Except PyErr (String × World) :=
  let key := "EXTRACTED: " ++ path
  match cache_lookup w key with
  | some f => .ok (f, w)
  | none =>
      match w.extractTool path with
      | .error e => .error e
      | .ok outBytes =>
          let filename := md5hex outBytes ++ "." ++ file_formats_PNG
          let w := storage_store w filename outBytes
          let w := cache_set w key filename
          .ok (filename, w)

/-! ### Composite graphie assets (lines 514-538) -/

/-- `_ExerciseGraphieFile.generate_graphie_file` (lines 514-538): cache
under the GRAPHIE key, else stream `<path>.svg` into the temp file, write
and absorb the fixed delimiter, then stream `<path>-data.json` resuming
the same md5, and store the concatenation under `<digest>.graphie`. -/
def generate_graphie_file (w : World) (path : String) :
    Except PyErr (String × World) :=
  let key := "GRAPHIE: " ++ path
  match cache_lookup w key with
  | some f => .ok (f, w)
  | none =>
      let delimiter := strBytes exercises_GRAPHIE_DELIMITER
      match write_and_get_hash w (path ++ ".svg") [] none with
      | .error e => .error e
      | .ok (tempf, hash) =>
          let tempf := tempf ++ delimiter
          let hash := hash.update delimiter
          match write_and_get_hash w (path ++ "-data.json") tempf (some hash) with
          | .error e => .error e
          | .ok (tempf, hash) =>
              let filename := hash.hexdigest ++ "." ++ file_formats_GRAPHIE
              let w := storage_store w filename tempf
              let w := cache_set w key filename
              .ok (filename, w)

/-! ### process_file per variant (the resolution step) -/

/-- A resolution step's outcome: `.error e` means a Python exception
escaped `process_file`; `.ok (r, d, w)` is the returned value together
with the mutated descriptor and world. -/
abbrev ProcResult := Except PyErr (Option String × FileD × World)

/-- The exception classes caught by `DownloadFile.process_file`
(line 249): HTTPError, ConnectionError, InvalidURL, UnicodeDecodeError,
UnicodeError, InvalidSchema, IOError, AssertionError. -/
def downloadCaught : PyErr → Bool
  | .httpError | .connectionError | .invalidURL | .unicodeDecodeError
  | .invalidSchema | .missingSchema => true
  | .ioError _ | .assertionError _ => true
  | _ => false

/-- The exception classes caught by `VideoFile.process_file` (line 335):
BrokenPipeError, CalledProcessError, IOError. -/
def videoCaught : PyErr → Bool
  | .brokenPipeError | .calledProcessError | .ioError _ => true
  | _ => false

/-- The exception classes caught by `_ExerciseGraphieFile.process_file`
(line 510): as DownloadFile's list but without AssertionError. -/
def graphieCaught : PyErr → Bool
  | .httpError | .connectionError | .invalidURL | .unicodeDecodeError
  | .invalidSchema | .missingSchema => true
  | .ioError _ => true
  | _ => false

/-- The shared failure path: set `self.error`, append the descriptor to
`config.FAILED_FILES`, return `None`. -/
def fail_with (d : FileD) (w : World) (e : PyErr) : ProcResult :=
  let d := { d with error := some e }
  .ok (none, d, record_failure w d)

/-- `DownloadFile.process_file` (lines 243-251). -/
def downloadFile_process_file (d : FileD) (w : World) : ProcResult :=
  match download w d.path d.default_ext with
  | .ok (f, w) => .ok (some f, { d with filename := some f }, w)
  | .error e => if downloadCaught e then fail_with d w e else .error e

/-- Python truthiness of `self.ffmpeg_settings` (None and {} are falsy). -/
def ffmpeg_truthy (d : FileD) : Bool :=
  !(d.ffmpeg_settings.getD []).isEmpty

/-- `VideoFile.process_file` (lines 326-337): download via the parent,
then compress when settings or the global flag ask for it; ffmpeg-related
errors are caught *after* `self.filename` was already assigned by the
parent, so the catch only adds the error. -/
def videoFile_process_file (d : FileD) (w : World) : ProcResult :=
  match downloadFile_process_file d w with
  | .error e => if videoCaught e then fail_with d w e else .error e
  | .ok (f?, d1, w1) =>
      match f? with
      | none => .ok (none, d1, w1)
      | some f =>
          if f ≠ "" ∧ (ffmpeg_truthy d1 ∨ w1.compress) then
            match compress_video_file w1 f d1.ffmpeg_settings with
            | .ok (f2, w2) => .ok (some f2, { d1 with filename := some f2 }, w2)
            | .error e => if videoCaught e then fail_with d1 w1 e else .error e
          else .ok (some f, d1, w1)

/-- `WebVideoFile.process_file` (lines 355-362): catches only
youtube_dl's DownloadError. -/
def webVideo_process_file (d : FileD) (w : World) : ProcResult :=
  match download_from_web w d.web_url d.download_settings with
  | .ok (f, w) => .ok (some f, { d with filename := some f }, w)
  | .error (.downloadError m) => fail_with d w (.downloadError m)
  | .error e => .error e

/-- `YouTubeSubtitleFile.process_file` (lines 378-381): no exception
handling at all — any failure in `download_subtitle` propagates. -/
def youtubeSubtitle_process_file (d : FileD) (w : World) : ProcResult :=
  match download_subtitle w d.youtube_id (d.language.getD "") with
  | .ok (f, w) => .ok (some f, { d with filename := some f }, w)
  | .error e => .error e

/-- `Base64ImageFile.process_file` (lines 436-443): no exception
handling — any failure in `convert_base64_to_file` propagates. -/
def base64_process_file (d : FileD) (w : World) : ProcResult :=
  match convert_base64_to_file w d.encoding with
  | .ok (f, w) => .ok (some f, { d with filename := some f }, w)
  | .error e => .error e

/-- `ExtractedVideoThumbnailFile.process_file` (lines 294-297): no
exception handling — extraction failures propagate. -/
def extracted_process_file (d : FileD) (w : World) : ProcResult :=
  match derive_thumbnail w d.path with
  | .ok (f, w) => .ok (some f, { d with filename := some f }, w)
  | .error e => .error e

/-- `_ExerciseGraphieFile.process_file` (lines 500-512). -/
def graphie_process_file (d : FileD) (w : World) : ProcResult :=
  match generate_graphie_file w d.path with
  | .ok (f, w) => .ok (some f, { d with filename := some f }, w)
  | .error e => if graphieCaught e then fail_with d w e else .error e

/-- `process_file`, dispatched over the class of the descriptor; the base
`File.process_file` (lines 224-226) is `pass`, returning `None`. -/
def process_file (d : FileD) (w : World) : ProcResult :=
  match d.variant with
  | .fileF => .ok (none, d, w)
  | .videoF => videoFile_process_file d w
  | .webVideoF => webVideo_process_file d w
  | .youtubeSubtitleF => youtubeSubtitle_process_file d w
  | .base64ImageF => base64_process_file d w
  | .exerciseBase64F => base64_process_file d w
  | .extractedThumbnailF => extracted_process_file d w
  | .exerciseGraphieF => graphie_process_file d w
  | _ => downloadFile_process_file d w

/-- `File.get_filename` (lines 199-202): return the already-set (truthy)
filename, else run `process_file`. No validation, no other steps. -/
def get_filename (d : FileD) (w : World) : ProcResult :=
  match d.filename with
  | some f => if f = "" then process_file d w else .ok (some f, d, w)
  | none => process_file d w

/-! ### get_preset (lines 158-174, 194-197, per-class overrides) -/

/-- Python `self.preset or fallback` (None and the empty string fall
through to the fallback). -/
def preset_or (p : Option String) (fallback : String) : String :=
  match p with
  | some v => if v = "" then fallback else v
  | none => fallback

/-- `ThumbnailPresetMixin.get_preset` (lines 160-174): dispatch on the
class of the owning node; the explicit `self.preset` is never consulted;
any unrecognised (or absent) node falls to `UnknownFileTypeError`. -/
def thumbnail_get_preset (node : Option NodeKind) : Except PyErr String :=
  match node with
  | some .channel => .ok format_presets_CHANNEL_THUMBNAIL
  | some .video => .ok format_presets_VIDEO_THUMBNAIL
  | some .audio => .ok format_presets_AUDIO_THUMBNAIL
  | some .document => .ok format_presets_DOCUMENT_THUMBNAIL
  | some .exercise => .ok format_presets_EXERCISE_THUMBNAIL
  | some .html5app => .ok format_presets_HTML5_THUMBNAIL
  | _ => .error (.unknownFileTypeError "Thumbnails are not supported for node kind.")

/-- `get_preset`, dispatched over the class hierarchy. `guess` stands for
the external `guess_video_preset_by_resolution` applied to the stored
file of video variants. -/
def get_preset (d : FileD) (guess : String → String) : Except PyErr String :=
  match d.variant with
  | .thumbnailF => thumbnail_get_preset d.node
  | .extractedThumbnailF => thumbnail_get_preset d.node
  | .base64ImageF => thumbnail_get_preset d.node
  | .audioF => .ok (preset_or d.preset format_presets_AUDIO)
  | .documentF => .ok (preset_or d.preset format_presets_DOCUMENT)
  | .htmlZipF => .ok (preset_or d.preset format_presets_HTML5_ZIP)
  | .videoF => .ok (preset_or d.preset (guess (storage_path (d.filename.getD ""))))
  | .webVideoF => .ok (preset_or d.preset (guess (storage_path (d.filename.getD ""))))
  | .youtubeSubtitleF => .ok (preset_or d.preset format_presets_VIDEO_SUBTITLE)
  | .subtitleF => .ok (preset_or d.preset format_presets_VIDEO_SUBTITLE)
  | .exerciseBase64F => .ok (preset_or d.preset format_presets_EXERCISE_IMAGE)
  | .exerciseImageF => .ok (preset_or d.preset format_presets_EXERCISE_IMAGE)
  | .exerciseGraphieF => .ok (preset_or d.preset format_presets_EXERCISE_GRAPHIE)
  | .fileF | .downloadF =>
      match d.preset with
      | some p => if p = "" then .error (.notImplementedError "preset must be set")
                  else .ok p
      | none => .error (.notImplementedError "preset must be set")

/-! ### Small observers used to state concrete facts -/

instance {ε α : Type} [DecidableEq ε] [DecidableEq α] :
    DecidableEq (Except ε α) := fun x y =>
  match x, y with
  | .ok a, .ok b =>
      if h : a = b then .isTrue (congrArg Except.ok h)
      else .isFalse (fun he => h (Except.ok.inj he))
  | .error a, .error b =>
      if h : a = b then .isTrue (congrArg Except.error h)
      else .isFalse (fun he => h (Except.error.inj he))
  | .ok _, .error _ => .isFalse (fun he => Except.noConfusion he)
  | .error _, .ok _ => .isFalse (fun he => Except.noConfusion he)

/-- The descriptor after a resolution step (the input descriptor when the
step raised). -/
def result_descriptor (r : ProcResult) (fallback : FileD) : FileD :=
  match r with
  | .ok (_, d, _) => d
  | .error _ => fallback

/-- The exception that escaped a resolution step, if any. -/
def escaped_error (r : ProcResult) : Option PyErr :=
  match r with
  | .ok _ => none
  | .error e => some e

/-! ### Concrete worlds and descriptors for witnesses and counterexamples -/

/-- A world whose external collaborators all fail, with realistic Python
exception classes for each tool. -/
def oracleW : World := {
  net := fun _ => .error .httpError
  fs := fun _ => .error (.ioError "No such file or directory")
  decode64 := fun _ => [1, 2, 3]
  compressTool := fun _ _ => .error .calledProcessError
  webVideoTool := fun _ _ => .error (.downloadError "unable to download video data")
  subtitleTool := fun _ _ => .error (.ioError "No such file or directory")
  extractTool := fun _ => .error .calledProcessError }

/-- A VideoFile with ffmpeg settings whose download is already cached. -/
def cexVideoD : FileD :=
  { variant := .videoF, path := "v.mp4", default_ext := some file_formats_MP4,
    ffmpeg_settings := some [("b", "500k")] }

def cexVideoW : World :=
  { oracleW with filecache := [("DOWNLOAD:v.mp4", "abc.mp4")] }

/-- A Base64ImageFile whose declared media type is not in the allow-list. -/
def cexB64D : FileD :=
  { variant := .base64ImageF, encoding := "data:image/gif;base64,QUJD" }

/-- A Base64ImageFile with a declared jpg type. -/
def witB64D : FileD :=
  { variant := .base64ImageF, encoding := "data:image/jpg;base64,QUJD" }

/-- A ThumbnailFile whose path has a disallowed extension. -/
def cexThumbD : FileD :=
  { variant := .thumbnailF, path := "img.xyz", default_ext := some file_formats_PNG }

def cexThumbW : World :=
  { oracleW with filecache := [("DOWNLOAD:img.xyz", "abc.png")] }

/-- An AudioFile used as a plain DownloadFile-family witness. -/
def witAudioD : FileD :=
  { variant := .audioF, path := "a.mp3", default_ext := some file_formats_MP3 }

def witAudioHitW : World :=
  { oracleW with filecache := [("DOWNLOAD:a.mp3", "c0ffee.mp3")] }

/-- A thumbnail descriptor with an explicit preset and a video node. -/
def cexPresetD : FileD :=
  { variant := .thumbnailF, preset := some "special", node := some .video }

def guess0 : String → String := fun _ => ""

/-- A world serving two graphie parts. -/
def witGraphieW : World :=
  { oracleW with net := fun p =>
      if p = "g.svg" then .ok [[1], [2]]
      else if p = "g-data.json" then .ok [[3, 4]]
      else .error .httpError }

/-- A world serving one mp3 file. -/
def witDlW : World :=
  { oracleW with net := fun p =>
      if p = "f.mp3" then .ok [[9, 9]] else .error .httpError }

/-- A world whose network yields an empty chunk stream for every path. -/
def cexEmptyW : World :=
  { oracleW with net := fun _ => .ok [] }

/-- A world whose network yields one single-byte chunk for every path. -/
def witChunkW : World :=
  { oracleW with net := fun _ => .ok [[7]] }

/-! ### Helper lemmas -/

/-- Folding `MD5.update` over a chunk list absorbs the flattened bytes. -/
theorem md5_foldl (cs : List (List UInt8)) (h : MD5) :
    cs.foldl MD5.update h = ⟨h.data ++ cs.flatten⟩ := by
  induction cs generalizing h with
  | nil => simp
  | cons c cs ih => simp [MD5.update, ih]

/-- A value returned by a cache hit is never the empty string. -/
theorem cache_lookup_ne_empty {w : World} {k f : String}
    (h : cache_lookup w k = some f) : f ≠ "" := by
  unfold cache_lookup at h
  split at h
  · exact absurd h (by simp)
  · split at h
    · split at h
      · exact absurd h (by simp)
      · next hne => cases h; exact hne
    · exact absurd h (by simp)

/-- A canonical `<digest>.<ext>` name is never empty. -/
theorem dotted_ne_empty (a b : String) : a ++ "." ++ b ≠ "" := by
  intro h
  have hd := congrArg String.data h
  simp [String.data_append] at hd

/-- `download` never returns the empty string. -/
theorem download_ok_ne_empty {w : World} {p : String} {dext : Option String}
    {f : String} {w' : World} (h : download w p dext = .ok (f, w')) : f ≠ "" := by
  simp only [download] at h
  cases hc : cache_lookup w ("DOWNLOAD:" ++ p) with
  | some g => simp only [hc] at h; cases h; exact cache_lookup_ne_empty hc
  | none =>
      simp only [hc] at h
      cases hw : write_and_get_hash w p [] none with
      | error e => simp [hw] at h
      | ok pr =>
          obtain ⟨tempf, hsh⟩ := pr
          simp only [hw] at h
          cases he : choose_extension (path_extension p) dext with
          | error e => simp [he] at h
          | ok ext => simp only [he] at h; cases h; exact dotted_ne_empty _ _

/-- `compress_video_file` never returns the empty string. -/
theorem compress_ok_ne_empty {w : World} {p : String}
    {s : Option (List (String × String))} {f : String} {w' : World}
    (h : compress_video_file w p s = .ok (f, w')) : f ≠ "" := by
  simp only [compress_video_file] at h
  cases hc : cache_lookup w
      (generate_key "COMPRESSED" p (s.getD []) " (default compression)") with
  | some g => simp only [hc] at h; cases h; exact cache_lookup_ne_empty hc
  | none =>
      simp only [hc] at h
      cases ht : w.compressTool (storage_path p) (s.getD []) with
      | error e => simp [ht] at h
      | ok outBytes => simp only [ht] at h; cases h; exact dotted_ne_empty _ _

/-- `download_from_web` never returns the empty string. -/
theorem download_from_web_ok_ne_empty {w : World} {u : String}
    {s : List (String × String)} {f : String} {w' : World}
    (h : download_from_web w u s = .ok (f, w')) : f ≠ "" := by
  simp only [download_from_web] at h
  cases hc : cache_lookup w (generate_key "DOWNLOADED" u s " (default)") with
  | some g => simp only [hc] at h; cases h; exact cache_lookup_ne_empty hc
  | none =>
      simp only [hc] at h
      cases ht : w.webVideoTool u s with
      | error e => simp [ht] at h
      | ok outBytes => simp only [ht] at h; cases h; exact dotted_ne_empty _ _

/-- `download_subtitle` never returns the empty string. -/
theorem download_subtitle_ok_ne_empty {w : World} {yid lang f : String}
    {w' : World} (h : download_subtitle w yid lang = .ok (f, w')) : f ≠ "" := by
  simp only [download_subtitle] at h
  cases hc : cache_lookup w ("DOWNLOADED YOUTUBE " ++ yid ++ "-" ++ lang) with
  | some g => simp only [hc] at h; cases h; exact cache_lookup_ne_empty hc
  | none =>
      simp only [hc] at h
      cases ht : w.subtitleTool yid lang with
      | error e => simp [ht] at h
      | ok outBytes => simp only [ht] at h; cases h; exact dotted_ne_empty _ _

/-- `derive_thumbnail` never returns the empty string. -/
theorem derive_thumbnail_ok_ne_empty {w : World} {p f : String} {w' : World}
    (h : derive_thumbnail w p = .ok (f, w')) : f ≠ "" := by
  simp only [derive_thumbnail] at h
  cases hc : cache_lookup w ("EXTRACTED: " ++ p) with
  | some g => simp only [hc] at h; cases h; exact cache_lookup_ne_empty hc
  | none =>
      simp only [hc] at h
      cases ht : w.extractTool p with
      | error e => simp [ht] at h
      | ok outBytes => simp only [ht] at h; cases h; exact dotted_ne_empty _ _

/-- `convert_base64_to_file` never returns the empty string. -/
theorem convert_base64_ok_ne_empty {w : World} {enc f : String} {w' : World}
    (h : convert_base64_to_file w enc = .ok (f, w')) : f ≠ "" := by
  simp only [convert_base64_to_file] at h
  cases hc : cache_lookup w
      ("ENCODED: " ++ md5hex (strBytes enc) ++ " (base64 encoded)") with
  | some g => simp only [hc] at h; cases h; exact cache_lookup_ne_empty hc
  | none =>
      simp only [hc] at h
      cases hb : get_base64_encoding enc with
      | none => simp [hb] at h
      | some ext =>
          simp only [hb] at h
          by_cases hl : ext = file_formats_PNG ∨ ext = file_formats_JPG ∨
              ext = file_formats_JPEG
          · rw [if_pos hl] at h; cases h; exact dotted_ne_empty _ _
          · rw [if_neg hl] at h; cases h

/-- `generate_graphie_file` never returns the empty string. -/
theorem generate_graphie_ok_ne_empty {w : World} {p f : String} {w' : World}
    (h : generate_graphie_file w p = .ok (f, w')) : f ≠ "" := by
  simp only [generate_graphie_file] at h
  cases hc : cache_lookup w ("GRAPHIE: " ++ p) with
  | some g => simp only [hc] at h; cases h; exact cache_lookup_ne_empty hc
  | none =>
      simp only [hc] at h
      cases h1 : write_and_get_hash w (p ++ ".svg") [] none with
      | error e => simp [h1] at h
      | ok pr =>
          obtain ⟨tempf, hsh⟩ := pr
          simp only [h1] at h
          cases h2 : write_and_get_hash w (p ++ "-data.json")
              (tempf ++ strBytes exercises_GRAPHIE_DELIMITER)
              (some (hsh.update (strBytes exercises_GRAPHIE_DELIMITER))) with
          | error e => simp [h2] at h
          | ok pr2 =>
              obtain ⟨tempf2, hsh2⟩ := pr2
              simp only [h2] at h
              cases h
              exact dotted_ne_empty _ _

/-- A successful `DownloadFile.process_file` stores the returned filename
on the descriptor, and that filename is non-empty. -/
theorem downloadFile_ok_some {d : FileD} {w : World} {f : String} {d' : FileD}
    {w' : World} (h : downloadFile_process_file d w = .ok (some f, d', w')) :
    d'.filename = some f ∧ f ≠ "" := by
  simp only [downloadFile_process_file] at h
  cases hd : download w d.path d.default_ext with
  | ok pr =>
      obtain ⟨g, w2⟩ := pr
      simp only [hd] at h
      cases h
      exact ⟨rfl, download_ok_ne_empty hd⟩
  | error e =>
      simp only [hd] at h
      by_cases hc : downloadCaught e = true
      · rw [if_pos hc] at h; simp [fail_with] at h
      · rw [if_neg hc] at h; cases h

/-- A successful `VideoFile.process_file` stores the returned filename on
the descriptor, and that filename is non-empty. -/
theorem videoFile_ok_some {d : FileD} {w : World} {f : String} {d' : FileD}
    {w' : World} (h : videoFile_process_file d w = .ok (some f, d', w')) :
    d'.filename = some f ∧ f ≠ "" := by
  simp only [videoFile_process_file] at h
  cases hd : downloadFile_process_file d w with
  | error e =>
      simp only [hd] at h
      by_cases hc : videoCaught e = true
      · rw [if_pos hc] at h; simp [fail_with] at h
      · rw [if_neg hc] at h; cases h
  | ok pr =>
      obtain ⟨g?, d1, w1⟩ := pr
      cases g? with
      | none => simp only [hd] at h; cases h
      | some g =>
          simp only [hd] at h
          by_cases hg : g ≠ "" ∧ (ffmpeg_truthy d1 = true ∨ w1.compress = true)
          · rw [if_pos hg] at h
            cases hcmp : compress_video_file w1 g d1.ffmpeg_settings with
            | ok pr2 =>
                obtain ⟨f2, w2⟩ := pr2
                simp only [hcmp] at h
                cases h
                exact ⟨rfl, compress_ok_ne_empty hcmp⟩
            | error e =>
                simp only [hcmp] at h
                by_cases hc : videoCaught e = true
                · rw [if_pos hc] at h; simp [fail_with] at h
                · rw [if_neg hc] at h; cases h
          · rw [if_neg hg] at h
            cases h
            exact downloadFile_ok_some hd

/-- A successful `WebVideoFile.process_file` stores the returned filename
on the descriptor, and that filename is non-empty. -/
theorem webVideo_ok_some {d : FileD} {w : World} {f : String} {d' : FileD}
    {w' : World} (h : webVideo_process_file d w = .ok (some f, d', w')) :
    d'.filename = some f ∧ f ≠ "" := by
  simp only [webVideo_process_file] at h
  cases hd : download_from_web w d.web_url d.download_settings with
  | ok pr =>
      obtain ⟨g, w2⟩ := pr
      simp only [hd] at h
      cases h
      exact ⟨rfl, download_from_web_ok_ne_empty hd⟩
  | error e =>
      simp only [hd] at h
      cases e <;> simp [fail_with] at h

/-- A successful `YouTubeSubtitleFile.process_file` stores the returned
filename on the descriptor, and that filename is non-empty. -/
theorem youtubeSubtitle_ok_some {d : FileD} {w : World} {f : String}
    {d' : FileD} {w' : World}
    (h : youtubeSubtitle_process_file d w = .ok (some f, d', w')) :
    d'.filename = some f ∧ f ≠ "" := by
  simp only [youtubeSubtitle_process_file] at h
  cases hd : download_subtitle w d.youtube_id (d.language.getD "") with
  | ok pr =>
      obtain ⟨g, w2⟩ := pr
      simp only [hd] at h
      cases h
      exact ⟨rfl, download_subtitle_ok_ne_empty hd⟩
  | error e => simp only [hd] at h; cases h

/-- A successful `Base64ImageFile.process_file` stores the returned
filename on the descriptor, and that filename is non-empty. -/
theorem base64_ok_some {d : FileD} {w : World} {f : String} {d' : FileD}
    {w' : World} (h : base64_process_file d w = .ok (some f, d', w')) :
    d'.filename = some f ∧ f ≠ "" := by
  simp only [base64_process_file] at h
  cases hd : convert_base64_to_file w d.encoding with
  | ok pr =>
      obtain ⟨g, w2⟩ := pr
      simp only [hd] at h
      cases h
      exact ⟨rfl, convert_base64_ok_ne_empty hd⟩
  | error e => simp only [hd] at h; cases h

/-- A successful `ExtractedVideoThumbnailFile.process_file` stores the
returned filename on the descriptor, and that filename is non-empty. -/
theorem extracted_ok_some {d : FileD} {w : World} {f : String} {d' : FileD}
    {w' : World} (h : extracted_process_file d w = .ok (some f, d', w')) :
    d'.filename = some f ∧ f ≠ "" := by
  simp only [extracted_process_file] at h
  cases hd : derive_thumbnail w d.path with
  | ok pr =>
      obtain ⟨g, w2⟩ := pr
      simp only [hd] at h
      cases h
      exact ⟨rfl, derive_thumbnail_ok_ne_empty hd⟩
  | error e => simp only [hd] at h; cases h

/-- A successful `_ExerciseGraphieFile.process_file` stores the returned
filename on the descriptor, and that filename is non-empty. -/
theorem graphie_ok_some {d : FileD} {w : World} {f : String} {d' : FileD}
    {w' : World} (h : graphie_process_file d w = .ok (some f, d', w')) :
    d'.filename = some f ∧ f ≠ "" := by
  simp only [graphie_process_file] at h
  cases hd : generate_graphie_file w d.path with
  | ok pr =>
      obtain ⟨g, w2⟩ := pr
      simp only [hd] at h
      cases h
      exact ⟨rfl, generate_graphie_ok_ne_empty hd⟩
  | error e =>
      simp only [hd] at h
      by_cases hc : graphieCaught e = true
      · rw [if_pos hc] at h; simp [fail_with] at h
      · rw [if_neg hc] at h; cases h

/-- A resolution step that returns a filename always records that filename
(non-empty) on the descriptor it returns. -/
theorem process_file_ok_some {d : FileD} {w : World} {f : String} {d' : FileD}
    {w' : World} (h : process_file d w = .ok (some f, d', w')) :
    d'.filename = some f ∧ f ≠ "" := by
  unfold process_file at h
  cases hv : d.variant <;> simp only [hv] at h
  case fileF => cases h
  case videoF => exact videoFile_ok_some h
  case webVideoF => exact webVideo_ok_some h
  case youtubeSubtitleF => exact youtubeSubtitle_ok_some h
  case base64ImageF => exact base64_ok_some h
  case exerciseBase64F => exact base64_ok_some h
  case extractedThumbnailF => exact extracted_ok_some h
  case exerciseGraphieF => exact graphie_ok_some h
  case downloadF => exact downloadFile_ok_some h
  case thumbnailF => exact downloadFile_ok_some h
  case audioF => exact downloadFile_ok_some h
  case documentF => exact downloadFile_ok_some h
  case htmlZipF => exact downloadFile_ok_some h
  case subtitleF => exact downloadFile_ok_some h
  case exerciseImageF => exact downloadFile_ok_some h

/-- Successful-path characterization of `write_and_get_hash`: when the
source yields `chunks` and the destination ends non-empty, the call
returns the destination content and the digest state extended by exactly
the copied bytes. -/
theorem write_and_get_hash_ok {w : World} {path : String}
    {chunks : List (List UInt8)} (file : List UInt8) (h0 : Option MD5)
    (hnet : get_chunks w path = .ok chunks)
    (hne : file ++ chunks.flatten ≠ []) :
    write_and_get_hash w path file h0 =
      .ok (file ++ chunks.flatten,
           ⟨(h0.getD MD5.new).data ++ chunks.flatten⟩) := by
  have hl : (file ++ chunks.flatten).length > 0 := by
    cases hfe : file ++ chunks.flatten with
    | nil => exact absurd hfe hne
    | cons a t => simp [hfe]
  simp only [write_and_get_hash, hnet, md5_foldl, if_pos hl]

/-! ### Claim theorems -/

/-- C4: resolving the same descriptor instance a second time returns the
identical filename as the first resolution, and does so for *any* ambient
world — in particular without a second cache lookup or network access,
since the result neither reads nor changes the world. -/
theorem get_filename_idempotent (d : FileD) (w : World) (f : String)
    (d' : FileD) (w' : World)
    (h : get_filename d w = .ok (some f, d', w')) :
    ∀ w2 : World, get_filename d' w2 = .ok (some f, d', w2) := by
  intro w2
  have hfd : d'.filename = some f ∧ f ≠ "" := by
    unfold get_filename at h
    cases hf : d.filename with
    | none => simp only [hf] at h; exact process_file_ok_some h
    | some g =>
        simp only [hf] at h
        by_cases hg : g = ""
        · rw [if_pos hg] at h; exact process_file_ok_some h
        · rw [if_neg hg] at h; cases h; exact ⟨hf, hg⟩
  simp only [get_filename, hfd.1]
  rw [if_neg hfd.2]

/-- C4 witness: a cached audio download resolves to `c0ffee.mp3`; the
second resolution returns the same name even in a world with an empty
cache and a dead network. -/
theorem get_filename_idempotent_witness :
    get_filename witAudioD witAudioHitW =
      .ok (some "c0ffee.mp3",
           { witAudioD with filename := some "c0ffee.mp3" }, witAudioHitW) ∧
    get_filename { witAudioD with filename := some "c0ffee.mp3" } oracleW =
      .ok (some "c0ffee.mp3",
           { witAudioD with filename := some "c0ffee.mp3" }, oracleW) :=
  ⟨by rfl,
   get_filename_idempotent witAudioD witAudioHitW "c0ffee.mp3"
     { witAudioD with filename := some "c0ffee.mp3" } witAudioHitW (by rfl)
     oracleW⟩

/-- C5: `generate_key` yields the same Action Cache key for any two
settings dictionaries holding the same entries in any insertion order. -/
theorem generate_key_perm_invariant (action path_or_id : String)
    (s1 s2 : List (String × String)) (default : String) (hp : s1.Perm s2) :
    generate_key action path_or_id s1 default =
      generate_key action path_or_id s2 default := by
  have hsort : sorted_items s1 = sorted_items s2 :=
    List.eq_of_perm_of_sorted
      (((List.perm_insertionSort pairLe s1).trans hp).trans
        (List.perm_insertionSort pairLe s2).symm)
      (List.sorted_insertionSort pairLe s1)
      (List.sorted_insertionSort pairLe s2)
  have hemp : s1.isEmpty = s2.isEmpty := by
    have hlen := hp.length_eq
    cases s1 <;> cases s2 <;> simp_all
  unfold generate_key
  rw [hemp, hsort]

/-- C5 witness: the two orderings of `{bitrate: 500, audio: aac}` produce
the same COMPRESSED cache key. -/
theorem generate_key_perm_invariant_witness :
    ([("bitrate", "500"), ("audio", "aac")].Perm
      [("audio", "aac"), ("bitrate", "500")]) ∧
    generate_key "compressed" "f.mp4" [("bitrate", "500"), ("audio", "aac")]
        " (default)" =
      generate_key "compressed" "f.mp4" [("audio", "aac"), ("bitrate", "500")]
        " (default)" :=
  ⟨by decide,
   generate_key_perm_invariant "compressed" "f.mp4" _ _ " (default)" (by decide)⟩

/-- C1 counterexample: a VideoFile whose download succeeds (cache hit
`abc.mp4`) and whose compression then fails ends `process_file` with BOTH
the filename and the error set — refuting "exactly one of filename/error
holds after resolution" for every descriptor. -/
theorem videoFile_both_filename_and_error :
    (result_descriptor (videoFile_process_file cexVideoD cexVideoW)
        cexVideoD).filename.isSome = true ∧
    (result_descriptor (videoFile_process_file cexVideoD cexVideoW)
        cexVideoD).error.isSome = true :=
  ⟨by decide, by decide⟩

/-- C1 amended: for `DownloadFile.process_file` on a fresh descriptor
(no filename, no error) that completes without raising, exactly one of
{filename set, error set} holds; `VideoFile.process_file` violates this
when compression fails after a successful download. -/
theorem downloadFile_exactly_one (d : FileD) (w : World) (r : Option String)
    (d' : FileD) (w' : World) (hf : d.filename = none) (he : d.error = none)
    (h : downloadFile_process_file d w = .ok (r, d', w')) :
    (d'.filename.isSome = true ∧ d'.error = none) ∨
    (d'.filename = none ∧ d'.error.isSome = true) := by
  simp only [downloadFile_process_file] at h
  cases hd : download w d.path d.default_ext with
  | ok pr =>
      obtain ⟨g, w2⟩ := pr
      simp only [hd] at h
      cases h
      exact Or.inl ⟨rfl, he⟩
  | error e =>
      simp only [hd] at h
      by_cases hc : downloadCaught e = true
      · rw [if_pos hc] at h
        simp only [fail_with] at h
        cases h
        exact Or.inr ⟨hf, rfl⟩
      · rw [if_neg hc] at h; cases h

/-- C1 witness: a fresh AudioFile whose network fails ends in the
failed state (no filename, error set). -/
theorem downloadFile_exactly_one_witness :
    (witAudioD.filename = none ∧ witAudioD.error = none) ∧
    ((({ witAudioD with error := some .httpError } : FileD).filename.isSome = true ∧
      ({ witAudioD with error := some .httpError } : FileD).error = none) ∨
     (({ witAudioD with error := some .httpError } : FileD).filename = none ∧
      ({ witAudioD with error := some .httpError } : FileD).error.isSome = true)) :=
  ⟨⟨rfl, rfl⟩,
   downloadFile_exactly_one witAudioD oracleW none
     { witAudioD with error := some .httpError }
     (record_failure oracleW { witAudioD with error := some .httpError })
     rfl rfl (by rfl)⟩

/-- C2 counterexample: `Base64ImageFile.process_file` propagates the
assertion failure for a declared type outside the allow-list — the
exception escapes the resolve boundary, no error is recorded on the
descriptor and nothing is appended to the Failure Sink. -/
theorem base64_process_file_raises :
    escaped_error (base64_process_file cexB64D oracleW) =
      some (.assertionError "Base64 files must be images in jpg or png format") := by
  decide

/-- Any error raised by `get_chunks` is in `DownloadFile.process_file`'s
caught set, provided the network and filesystem oracles only raise
requests/OS errors from that set. -/
theorem get_chunks_error_caught {w : World} {p : String} {e : PyErr}
    (hnet : ∀ q e2, w.net q = .error e2 → downloadCaught e2 = true)
    (hfs : ∀ q e2, w.fs q = .error e2 → downloadCaught e2 = true)
    (h : get_chunks w p = .error e) : downloadCaught e = true := by
  simp only [get_chunks] at h
  cases hn : w.net p with
  | ok c => simp [hn] at h
  | error e2 =>
      cases e2 <;> simp only [hn] at h <;>
        first
        | exact hfs p e h
        | (cases h; exact hnet p _ hn)

/-- Any error raised by `write_and_get_hash` is in
`DownloadFile.process_file`'s caught set, under the same oracle bounds. -/
theorem write_and_get_hash_error_caught {w : World} {p : String}
    {file : List UInt8} {h0 : Option MD5} {e : PyErr}
    (hnet : ∀ q e2, w.net q = .error e2 → downloadCaught e2 = true)
    (hfs : ∀ q e2, w.fs q = .error e2 → downloadCaught e2 = true)
    (h : write_and_get_hash w p file h0 = .error e) :
    downloadCaught e = true := by
  simp only [write_and_get_hash] at h
  cases hg : get_chunks w p with
  | error e2 =>
      simp only [hg] at h
      cases h
      exact get_chunks_error_caught hnet hfs hg
  | ok chunks =>
      simp only [hg] at h
      by_cases hl : (file ++ chunks.flatten).length > 0
      · rw [if_pos hl] at h; cases h
      · rw [if_neg hl] at h; cases h; rfl

/-- Any error raised by `choose_extension` (the `IOError` for a missing
extension) is in `DownloadFile.process_file`'s caught set. -/
theorem choose_extension_error_caught {x : String} {dext : Option String}
    {e : PyErr} (h : choose_extension x dext = .error e) :
    downloadCaught e = true := by
  cases dext with
  | none =>
      simp only [choose_extension] at h
      by_cases hm : x ∈ file_formats_choices
      · rw [if_pos hm] at h; cases h
      · rw [if_neg hm] at h; cases h; rfl
  | some dx =>
      simp only [choose_extension] at h
      by_cases hm : x ∈ file_formats_choices
      · rw [if_pos hm] at h; cases h
      · rw [if_neg hm] at h
        by_cases hdx : dx = ""
        · rw [if_pos hdx] at h; cases h; rfl
        · rw [if_neg hdx] at h; cases h

/-- Any error raised by `download` is in `DownloadFile.process_file`'s
caught set, under the same oracle bounds. -/
theorem download_error_caught {w : World} {p : String} {dext : Option String}
    {e : PyErr}
    (hnet : ∀ q e2, w.net q = .error e2 → downloadCaught e2 = true)
    (hfs : ∀ q e2, w.fs q = .error e2 → downloadCaught e2 = true)
    (h : download w p dext = .error e) : downloadCaught e = true := by
  simp only [download] at h
  cases hc : cache_lookup w ("DOWNLOAD:" ++ p) with
  | some g => simp [hc] at h
  | none =>
      simp only [hc] at h
      cases hw : write_and_get_hash w p [] none with
      | error e2 =>
          simp only [hw] at h
          cases h
          exact write_and_get_hash_error_caught hnet hfs hw
      | ok pr =>
          obtain ⟨t, hs⟩ := pr
          simp only [hw] at h
          cases he : choose_extension (path_extension p) dext with
          | error e3 =>
              simp only [he] at h
              cases h
              exact choose_extension_error_caught he
          | ok ext => simp [he] at h

/-- C2 amended: `DownloadFile.process_file` never raises past the resolve
boundary when the network and filesystem raise only errors of its caught
set (the classes `requests`/`open` actually raise); on the failure path it
sets the descriptor's error, appends the descriptor to
`config.FAILED_FILES`, and returns no filename. The guarantee does NOT
extend to `Base64ImageFile` or `YouTubeSubtitleFile`, which have no
exception handling in `process_file`. -/
theorem downloadFile_never_raises (d : FileD) (w : World)
    (hnet : ∀ q e, w.net q = .error e → downloadCaught e = true)
    (hfs : ∀ q e, w.fs q = .error e → downloadCaught e = true) :
    (∃ x, downloadFile_process_file d w = .ok x) ∧
    ∀ d' w', downloadFile_process_file d w = .ok (none, d', w') →
      d'.error.isSome = true ∧ w'.failed = w.failed ++ [d'] := by
  constructor
  · cases hd : download w d.path d.default_ext with
    | ok pr =>
        obtain ⟨g, w2⟩ := pr
        exact ⟨_, by simp only [downloadFile_process_file, hd]; rfl⟩
    | error e =>
        exact ⟨_, by
          simp only [downloadFile_process_file, hd,
            download_error_caught hnet hfs hd, if_true]
          rfl⟩
  · intro d' w' h
    simp only [downloadFile_process_file] at h
    cases hd : download w d.path d.default_ext with
    | ok pr => obtain ⟨g, w2⟩ := pr; simp only [hd] at h; cases h
    | error e =>
        simp only [hd] at h
        by_cases hc : downloadCaught e = true
        · rw [if_pos hc] at h
          simp only [fail_with] at h
          cases h
          exact ⟨rfl, rfl⟩
        · rw [if_neg hc] at h; cases h

/-- C2 witness: with a dead network (`HTTPError`) and missing local files
(`IOError`), a DownloadFile resolution completes without raising. -/
theorem downloadFile_never_raises_witness :
    ∃ x, downloadFile_process_file witAudioD oracleW = .ok x :=
  (downloadFile_never_raises witAudioD oracleW
    (fun q e h => by cases h; rfl)
    (fun q e h => by cases h; rfl)).1

/-- C3 counterexample: a ThumbnailFile whose `validate` fails (extension
`xyz` outside the allow-list) nonetheless resolves successfully from the
Action Cache: `get_filename` never invokes `validate`, consults the cache,
returns the cached filename, and records no failure. -/
theorem get_filename_skips_validate :
    validate cexThumbD =
      .error (.assertionError "must have one of the following extensions") ∧
    get_filename cexThumbD cexThumbW =
      .ok (some "abc.png", { cexThumbD with filename := some "abc.png" },
           cexThumbW) :=
  ⟨by decide, by rfl⟩

/-- C3 amended: resolution (`get_filename`) performs no validation at all:
even a descriptor whose `validate` fails resolves straight from the Action
Cache with no failure recorded; `validate` is only ever run by callers
outside the resolution path. -/
theorem get_filename_no_validation (d : FileD) (w : World) (f : String)
    (hvar : d.variant = .thumbnailF) (hfn : d.filename = none)
    (hcache : cache_lookup w ("DOWNLOAD:" ++ d.path) = some f)
    (_hval : ∃ e, validate d = .error e) :
    get_filename d w = .ok (some f, { d with filename := some f }, w) := by
  simp only [get_filename, hfn, process_file, hvar, downloadFile_process_file,
    download, hcache]

/-- C3 witness: the invalid-extension thumbnail of the counterexample
satisfies the amended theorem's hypotheses. -/
theorem get_filename_no_validation_witness :
    (∃ e, validate cexThumbD = .error e) ∧
    get_filename cexThumbD cexThumbW =
      .ok (some "abc.png", { cexThumbD with filename := some "abc.png" },
           cexThumbW) :=
  ⟨⟨.assertionError "must have one of the following extensions", by decide⟩,
   get_filename_no_validation cexThumbD cexThumbW "abc.png" rfl rfl (by decide)
     ⟨.assertionError "must have one of the following extensions", by decide⟩⟩

/-- C7 counterexample: a ThumbnailFile constructed with the explicit
preset `special` and owned by a video node classifies as
`video_thumbnail` — the explicitly supplied preset does NOT win for
thumbnail variants. -/
theorem thumbnail_preset_ignores_explicit :
    cexPresetD.preset = some "special" ∧
    get_preset cexPresetD guess0 = .ok format_presets_VIDEO_THUMBNAIL ∧
    format_presets_VIDEO_THUMBNAIL ≠ "special" :=
  ⟨by decide, by decide, by decide⟩

/-- C7 amended: an explicit preset wins only for non-thumbnail variants
(e.g. AudioFile); for thumbnail variants the owning node's kind alone
determines the preset — the explicit value is ignored — and an
unrecognised node kind (e.g. a topic node) is an error. -/
theorem get_preset_precedence (d : FileD) (g : String → String) (p : String)
    (hp : p ≠ "") :
    (d.variant = .audioF → get_preset { d with preset := some p } g = .ok p) ∧
    (d.variant = .thumbnailF →
      get_preset { d with preset := some p } g = thumbnail_get_preset d.node) ∧
    (d.variant = .thumbnailF → d.node = some .topic →
      ∃ m, get_preset d g = .error (.unknownFileTypeError m)) := by
  refine ⟨fun hv => ?_, fun hv => ?_, fun hv hn => ?_⟩
  · simp only [get_preset, hv, preset_or]
    rw [if_neg hp]
  · simp only [get_preset, hv]
  · simp only [get_preset, hv, hn, thumbnail_get_preset]
    exact ⟨_, rfl⟩

/-- C7 witness: instances of all three clauses of the precedence rule. -/
theorem get_preset_precedence_witness :
    ("special" : String) ≠ "" ∧
    (get_preset { cexPresetD with variant := .audioF, preset := some "special" }
        guess0 = .ok "special") ∧
    (get_preset { cexPresetD with preset := some "special" } guess0 =
      thumbnail_get_preset cexPresetD.node) :=
  ⟨by decide,
   by
     have h := (get_preset_precedence { cexPresetD with variant := .audioF }
       guess0 "special" (by decide)).1 rfl
     exact h,
   by
     have h := ((get_preset_precedence cexPresetD guess0 "special"
       (by decide)).2).1 rfl
     exact h⟩

/-- C9 counterexample: a resumed `write_and_get_hash` call that copies
ZERO bytes (the source yields an empty chunk stream) succeeds, because the
assertion checks the destination's file position — which already counts
the bytes a previous call wrote — not the bytes this call copied. -/
theorem write_and_get_hash_empty_resume_ok :
    get_chunks cexEmptyW "p" = .ok [] ∧
    write_and_get_hash cexEmptyW "p" [55] (some ⟨[55]⟩) = .ok ([55], ⟨[55]⟩) :=
  ⟨by decide, by decide⟩

/-- C9 amended: given the source yields chunk stream `chunks`,
`write_and_get_hash` fails iff the destination file is empty after the
copy — i.e. zero bytes were copied AND nothing had been written before; a
resumed call over a non-empty destination never fails, even on an empty
transfer. Otherwise it returns the destination content and the digest
state extended by exactly the copied bytes. -/
theorem write_and_get_hash_error_iff (w : World) (path : String)
    (file : List UInt8) (h0 : Option MD5) (chunks : List (List UInt8))
    (hnet : get_chunks w path = .ok chunks) :
    ((∃ e, write_and_get_hash w path file h0 = .error e) ↔
      file = [] ∧ chunks.flatten = []) ∧
    (file ++ chunks.flatten ≠ [] →
      write_and_get_hash w path file h0 =
        .ok (file ++ chunks.flatten,
             ⟨(h0.getD MD5.new).data ++ chunks.flatten⟩)) := by
  constructor
  · constructor
    · rintro ⟨e, he⟩
      simp only [write_and_get_hash, hnet] at he
      by_cases hl : (file ++ chunks.flatten).length > 0
      · rw [if_pos hl] at he; cases he
      · rw [if_neg hl] at he
        have : file ++ chunks.flatten = [] := by
          cases hfe : file ++ chunks.flatten with
          | nil => rfl
          | cons a t => rw [hfe] at hl; simp at hl
        exact List.append_eq_nil.mp this
    · rintro ⟨h1, h2⟩
      refine ⟨.assertionError "File failed to write (corrupted).", ?_⟩
      simp only [write_and_get_hash, hnet, h1, h2, md5_foldl]
      rfl

  · intro hne
    have hl : (file ++ chunks.flatten).length > 0 := by
      cases hfe : file ++ chunks.flatten with
      | nil => exact absurd hfe hne
      | cons a t => simp [hfe]
    simp only [write_and_get_hash, hnet, md5_foldl, if_pos hl]

/-- C9 witness: a fresh call over one single-byte chunk returns the
content and digest; an all-empty transfer to an empty file fails. -/
theorem write_and_get_hash_error_iff_witness :
    get_chunks witChunkW "p" = .ok [[7]] ∧
    write_and_get_hash witChunkW "p" [] none = .ok ([7], ⟨[7]⟩) :=
  ⟨by decide,
   by
     have h := ((write_and_get_hash_error_iff witChunkW "p" [] none [[7]]
       (by decide)).2) (by decide)
     simpa using h⟩

/-- C10: whenever the declared media type of an inline base64 payload
passes the {png, jpg, jpeg} allow-list (and the Action Cache misses), the
decoded bytes are stored under a canonical filename whose extension is
always `png`, regardless of the declared type. -/
theorem convert_base64_always_png (w : World) (encoding ext : String)
    (hmiss : cache_lookup w
      ("ENCODED: " ++ md5hex (strBytes encoding) ++ " (base64 encoded)") = none)
    (hext : get_base64_encoding encoding = some ext)
    (hallow : ext = file_formats_PNG ∨ ext = file_formats_JPG ∨
      ext = file_formats_JPEG) :
    ∃ w', convert_base64_to_file w encoding =
      .ok (md5hex (w.decode64 encoding) ++ "." ++ file_formats_PNG, w') := by
  exact ⟨_, by simp only [convert_base64_to_file, hmiss, hext, if_pos hallow]; rfl⟩

/-- C10 witness: a payload declared `jpg` is stored under a `.png` name. -/
theorem convert_base64_always_png_witness :
    get_base64_encoding witB64D.encoding = some "jpg" ∧
    ∃ w', convert_base64_to_file oracleW witB64D.encoding =
      .ok (md5hex (oracleW.decode64 witB64D.encoding) ++ "." ++
           file_formats_PNG, w') :=
  ⟨by decide,
   convert_base64_always_png oracleW witB64D.encoding "jpg" (by decide)
     (by decide) (by decide)⟩

/-- C6: the staged digest computed by `generate_graphie_file` — hash part
A's bytes, update with the fixed delimiter, resume over part B's bytes —
equals the digest of the single concatenated sequence
`A ++ delimiter ++ B`, and the produced filename carries exactly that
digest. -/
theorem graphie_hash_concat (w : World) (path : String)
    (A B : List (List UInt8))
    (hmiss : cache_lookup w ("GRAPHIE: " ++ path) = none)
    (hA : get_chunks w (path ++ ".svg") = .ok A)
    (hB : get_chunks w (path ++ "-data.json") = .ok B)
    (hA0 : A.flatten ≠ []) :
    ∃ w', generate_graphie_file w path =
      .ok ((MD5.new.update (A.flatten ++ strBytes exercises_GRAPHIE_DELIMITER
              ++ B.flatten)).hexdigest ++ "." ++ file_formats_GRAPHIE, w') := by
  have hne1 : ([] : List UInt8) ++ A.flatten ≠ [] := by simpa using hA0
  have hne2 : (A.flatten ++ strBytes exercises_GRAPHIE_DELIMITER)
      ++ B.flatten ≠ [] := by
    simp only [ne_eq, List.append_eq_nil]
    rintro ⟨⟨hA', _⟩, _⟩
    exact hA0 hA'
  have e1 := @write_and_get_hash_ok w (path ++ ".svg") A [] none hA hne1
  have e2 := @write_and_get_hash_ok w (path ++ "-data.json") B
      (A.flatten ++ strBytes exercises_GRAPHIE_DELIMITER)
      (some ⟨A.flatten ++ strBytes exercises_GRAPHIE_DELIMITER⟩) hB hne2
  exact ⟨_, by
    simp only [generate_graphie_file, hmiss, e1, e2, List.nil_append,
      Option.getD_some, Option.getD_none, MD5.new, MD5.update, MD5.hexdigest,
      List.append_assoc]
    rfl⟩

/-- C6 witness: two concrete parts and the snowman delimiter resolve to a
`.graphie` artifact named by the digest of the concatenation. -/
theorem graphie_hash_concat_witness :
    get_chunks witGraphieW "g.svg" = .ok [[1], [2]] ∧
    ∃ w', generate_graphie_file witGraphieW "g" =
      .ok ((MD5.new.update ([1, 2] ++ strBytes exercises_GRAPHIE_DELIMITER
              ++ [3, 4])).hexdigest ++ "." ++ file_formats_GRAPHIE, w') :=
  ⟨by decide,
   by
     have h := graphie_hash_concat witGraphieW "g" [[1], [2]] [[3, 4]]
       (by decide) (by decide) (by decide) (by decide)
     simpa using h⟩

/-- C8: on a cache miss with a non-empty fetch, `download` names the
artifact `<digest>.<ext>` where the extension is the locator's suffix if
that suffix is a recognised format; otherwise the (truthy) default
extension; and when neither is available it raises `IOError` instead of
returning a filename. -/
theorem download_extension_selection (w : World) (path : String)
    (dext : Option String) (chunks : List (List UInt8))
    (hmiss : cache_lookup w ("DOWNLOAD:" ++ path) = none)
    (hnet : get_chunks w path = .ok chunks)
    (hnz : chunks.flatten ≠ []) :
    (path_extension path ∈ file_formats_choices →
      ∃ w', download w path dext =
        .ok (md5hex chunks.flatten ++ "." ++ path_extension path, w')) ∧
    (path_extension path ∉ file_formats_choices → ∀ dx, dext = some dx →
      dx ≠ "" →
      ∃ w', download w path dext =
        .ok (md5hex chunks.flatten ++ "." ++ dx, w')) ∧
    (path_extension path ∉ file_formats_choices →
      (dext = none ∨ dext = some "") →
      download w path dext = .error (.ioError "No extension found")) := by
  have hne : ([] : List UInt8) ++ chunks.flatten ≠ [] := by simpa using hnz
  have e1 := @write_and_get_hash_ok w path chunks [] none hnet hne
  refine ⟨fun hm => ?_, fun hm dx hdx hdx0 => ?_, fun hm hnone => ?_⟩
  · have ec : choose_extension (path_extension path) dext =
        .ok (path_extension path) := by
      simp only [choose_extension, if_pos hm]
    exact ⟨_, by
      simp only [download, hmiss, e1, ec, List.nil_append, Option.getD_none,
        MD5.new, MD5.hexdigest]
      rfl⟩
  · subst hdx
    have ec : choose_extension (path_extension path) (some dx) = .ok dx := by
      simp only [choose_extension, if_neg hm]
      rw [if_neg hdx0]
    exact ⟨_, by
      simp only [download, hmiss, e1, ec, List.nil_append, Option.getD_none,
        MD5.new, MD5.hexdigest]
      rfl⟩
  · have ec : choose_extension (path_extension path) dext =
        .error (.ioError "No extension found") := by
      rcases hnone with h | h <;> subst h <;>
        simp [choose_extension, if_neg hm]
    simp only [download, hmiss, e1, ec]

/-- C8 witness: a recognised `.mp3` suffix is kept; the same content at an
extension-less path falls back to the default `mp3`; with no default the
fetch fails with `IOError`. -/
theorem download_extension_selection_witness :
    path_extension "f.mp3" ∈ file_formats_choices ∧
    ∃ w', download witDlW "f.mp3" none =
      .ok (md5hex [9, 9] ++ "." ++ path_extension "f.mp3", w') :=
  ⟨by decide,
   by
     have h := (download_extension_selection witDlW "f.mp3" none [[9, 9]]
       (by decide) (by decide) (by decide)).1 (by decide)
     simpa using h⟩

end Ricecooker
